import Mathlib

set_option autoImplicit false

/-!
Shallow embedding of `src/marner/backup.py` (the folder-backup pipeline of the
marner repository).

Modelling conventions:
* Raw message bytes and parsed message records are abstracted as `Nat` tokens.
* The IMAP server, the `email` parser and the append outcome are captured by a
  `World` record: `backup.py` only branches on the `typ != "OK"` status of each
  protocol call and on the bytes returned, so a world fixes those outcomes.
* The local filesystem is an association list of path/content pairs plus a list
  of existing directories.  `mailbox.mbox(path)` creates the file eagerly in
  `__init__` (CPython `_singlefileMailbox.__init__` opens the path with
  `'wb+'` when it does not exist), messages added via `mbox.add` are flushed
  when `mbox.close()` runs; both are reflected below.
* Exceptions are values of `PyErr`, one constructor per Python exception class
  actually raised by the code (`ImapRuntimeError`, `FileNotFoundError`,
  `RuntimeError` from `place_message`, and `OSError` for injected local I/O
  failures that the code does not wrap).
-/

namespace Marner

/-- The Python exception classes that `backup.py` can let escape:
`ImapRuntimeError` (defined in the module), `FileNotFoundError` (raised by
`GetTempdir.__init__`), `RuntimeError` (raised by `place_message`), and a
plain `OSError` for local I/O failures the module never wraps. -/
inductive PyErr where
  | imapRuntimeError (msg : String)
  | fileNotFoundError (msg : String)
  | runtimeError (msg : String)
  | osError (msg : String)
  deriving DecidableEq, Repr

/-- The Python class name of an exception value: this is what `except` clauses
and callers can distinguish without inspecting the message text. -/
def PyErr.kind : PyErr → String
  | .imapRuntimeError _ => "ImapRuntimeError"
  | .fileNotFoundError _ => "FileNotFoundError"
  | .runtimeError _ => "RuntimeError"
  | .osError _ => "OSError"

/-- Contents of one local file: an mbox container (list of parsed messages in
append order), a zip archive (list of named entries, each entry a verbatim
copy of some file's data), or an unstructured file placed by the caller. -/
inductive FileData where
  | mboxData (msgs : List Nat)
  | zipData (entries : List (String × FileData))
  | rawData (n : Nat)

/-- A `pathlib.Path` produced by `make_file_name`: a directory joined with a
base file name (the base never contains `/` because sanitization replaced it). -/
structure FPath where
  dir : String
  base : String
  deriving DecidableEq, Repr

def FPath.asString (p : FPath) : String := p.dir ++ "/" ++ p.base

/-- Local filesystem state: files keyed by full path, plus existing
directories. -/
structure FState where
  files : List (String × FileData)
  dirs : List String

def flookup (st : FState) (p : String) : Option FileData :=
  (st.files.find? (fun e => e.1 == p)).map Prod.snd

def fexists (st : FState) (p : String) : Bool :=
  st.files.any (fun e => e.1 == p)

def funlink (st : FState) (p : String) : FState :=
  { st with files := st.files.filter (fun e => e.1 != p) }

def fwrite (st : FState) (p : String) (d : FileData) : FState :=
  { st with files := (p, d) :: (funlink st p).files }

def dexists (st : FState) (d : String) : Bool := st.dirs.contains d

/-- `if path.exists(): path.unlink()` as it appears twice in `collect_emails`. -/
def unlink_if_exists (st : FState) (p : String) : FState :=
  if fexists st p then funlink st p else st

/-- `p` lies inside directory `dir` (its path extends `dir ++ "/"`). -/
def inDir (dir p : String) : Bool := (dir ++ "/").data.isPrefixOf p.data

/-- Python truthiness of the `use_directory` argument: `None` and the empty
string are falsy (`if not use_directory`). -/
def pyFalsy : Option String → Bool
  | none => true
  | some s => s.isEmpty

/-- The state of a `GetTempdir` context manager after `__init__`. -/
structure GetTempdir where
  tempdir : String
  remove_directory : Bool
  deriving DecidableEq, Repr

/-- `GetTempdir.__init__` (backup.py lines 54-68).  `freshDir` stands for the
directory name `tempfile.mkdtemp()` would mint (and create). -/
def GetTempdir.init (freshDir : String) (use_directory : Option String)
    (st : FState) : Except PyErr (GetTempdir × FState) :=
  if pyFalsy use_directory then
    .ok (⟨freshDir, true⟩, { st with dirs := freshDir :: st.dirs })
  else
    let d := use_directory.getD ""
    if dexists st d || fexists st d then
      .ok (⟨d, false⟩, st)
    else
      .error (.fileNotFoundError ("Can't find temp directory " ++ d))

/-- `GetTempdir.__exit__` (backup.py lines 74-84): when the directory is owned,
unlink every file inside it and remove the directory; always lets the pending
exception propagate (returns `False`). -/
def GetTempdir.exit (td : GetTempdir) (st : FState) : FState :=
  if td.remove_directory then
    { files := st.files.filter (fun e => !(inDir td.tempdir e.1)),
      dirs := st.dirs.erase td.tempdir }
  else st

/-- The character map of `folder.translate({47: 95, 42: 95, 46: 95, 32: 95})`
(backup.py line 91): codepoints 47 `/`, 42 `*`, 46 `.`, 32 space each map to
codepoint 95 `_`. -/
def translateChar (c : Char) : Char :=
  if c = Char.ofNat 47 ∨ c = Char.ofNat 42 ∨ c = Char.ofNat 46 ∨ c = Char.ofNat 32 then
    Char.ofNat 95
  else c

/-- `str.translate` applied to the folder name. -/
def translate_folder (folder : String) : String :=
  ⟨folder.data.map translateChar⟩

/-- `make_file_name` (backup.py lines 87-95). -/
def make_file_name (directory folder extension : String) : FPath :=
  ⟨directory,
   translate_folder folder ++ (if extension.isEmpty then "" else "." ++ extension)⟩

/-- Environment of one run: the outcomes of every external call `backup.py`
branches on.  `fetch uid = none` models `typ != "OK"` for that uid's fetch;
`parse` models `email.message_from_bytes`; `mboxCreateErr` injects a local
I/O failure at `mailbox.mbox(mbox_path)`; `freshDir` is the name
`tempfile.mkdtemp()` would mint. -/
structure World where
  authOk : Bool
  authMsg : String
  selectOk : String → Bool
  searchOk : Bool
  uids : List String
  fetch : String → Option Nat
  parse : Nat → Except PyErr Nat
  appendOk : Bool
  appendMsg : String
  mboxCreateErr : Option String
  freshDir : String

/-- `open_connection` (backup.py lines 33-48): transport or login failure is
re-raised as `ImapRuntimeError(str(err))`. -/
def open_connection (w : World) : Except PyErr Unit :=
  if w.authOk then .ok () else .error (.imapRuntimeError w.authMsg)

/-- The interleaved per-identifier loop: the `for eml in get_folder_emails`
body (backup.py lines 175-177) pulling the generator (lines 113-120).  Each
step fetches one uid; a failed fetch raises `ImapRuntimeError("Fetch failed")`
and a failed `email.message_from_bytes` raises its own error; either aborts
with the prefix of messages already added. -/
def fetch_parse_loop (w : World) : List String → List Nat × Option PyErr
  | [] => ([], none)
  | uid :: rest =>
    match w.fetch uid with
    | none => ([], some (.imapRuntimeError "Fetch failed"))
    | some raw =>
      match w.parse raw with
      | .error e => ([], some e)
      | .ok m =>
        let r := fetch_parse_loop w rest
        (m :: r.1, r.2)

/-- Driving `get_folder_emails` (backup.py lines 98-120) to completion or
first failure: the generator body runs `select` and the uid `search` at the
first pull, then yields one fetched message per uid.  Returns the messages
added before any failure, and the escaping error if one was raised. -/
def container_build (w : World) (folder : String) : List Nat × Option PyErr :=
  if w.selectOk folder then
    if w.searchOk then
      fetch_parse_loop w w.uids
    else ([], some (.imapRuntimeError "Search failed"))
  else ([], some (.imapRuntimeError ("Cannot select folder \"" ++ folder ++ "\".")))

/-- The zip block of `collect_emails` (backup.py lines 187-198): unlink a
pre-existing archive, then create a fresh zip holding one entry — the verbatim
contents of the container file, stored under the container's base name. -/
def zip_step (mbox_path zip_path : FPath) (st : FState) : FState × Option PyErr :=
  let st1 := unlink_if_exists st zip_path.asString
  match flookup st1 mbox_path.asString with
  | none => (st1, some (.fileNotFoundError mbox_path.asString))
  | some fd =>
    (fwrite st1 zip_path.asString (.zipData [(mbox_path.base, fd)]), none)

/-- `place_message` (backup.py lines 123-156): reads the zip file back and
appends a new message to INBOX; a rejected append raises
`RuntimeError("Cannot post message: ...")`. -/
def place_message (w : World) (tempdir folder_name : String) (st : FState) :
    Except PyErr Unit :=
  let zip_path := make_file_name tempdir folder_name "zip"
  match flookup st zip_path.asString with
  | none => .error (.fileNotFoundError zip_path.asString)
  | some _ =>
    if w.appendOk then .ok ()
    else .error (.runtimeError ("Cannot post message: " ++ w.appendMsg))

/-- Result of the body of `collect_emails` inside the `GetTempdir` scope:
final filesystem, escaping error, and whether `mbox.close()` ran. -/
structure BodyResult where
  st : FState
  error : Option PyErr
  mboxClosed : Bool

/-- The zip-and-post tail of `collect_emails` (backup.py lines 187-201), run
once the loop ended cleanly and `mbox.close()` flushed the container. -/
def zip_and_post (w : World) (folder tempdir : String) (mbox_path zip_path : FPath)
    (st : FState) : BodyResult :=
  let z := zip_step mbox_path zip_path st
  match z.2 with
  | some e => ⟨z.1, some e, true⟩
  | none =>
    match place_message w tempdir folder z.1 with
    | .error e => ⟨z.1, some e, true⟩
    | .ok _ => ⟨z.1, none, true⟩

/-- The body of `collect_emails` (backup.py lines 163-201), everything inside
`with GetTempdir(...) as tempdir`: unlink a pre-existing container, create the
container file (`mailbox.mbox` creates it eagerly), open the connection, run
the fetch/parse/add loop with `mbox.close()` in a `finally`, then zip and
post.  Any escaping error is recorded unmasked. -/
def collect_emails_body (w : World) (folder tempdir : String) (st : FState) :
    BodyResult :=
  let mbox_path := make_file_name tempdir folder "mbox"
  let st1 := unlink_if_exists st mbox_path.asString
  match w.mboxCreateErr with
  | some m => ⟨st1, some (.osError m), false⟩
  | none =>
    let st2 := fwrite st1 mbox_path.asString (.mboxData [])
    match open_connection w with
    | .error e => ⟨st2, some e, false⟩
    | .ok _ =>
      let r := container_build w folder
      let st3 := fwrite st2 mbox_path.asString (.mboxData r.1)
      match r.2 with
      | some e => ⟨st3, some e, true⟩
      | none =>
        zip_and_post w folder tempdir mbox_path (make_file_name tempdir folder "zip") st3

/-- Result of one whole `collect_emails` run. -/
structure RunResult where
  st : FState
  error : Option PyErr

/-- `collect_emails` (backup.py lines 159-201): acquire the temporary
directory scope, run the body, release the scope (`__exit__` runs on every
exit path and never swallows the exception). -/
def collect_emails (w : World) (folder : String) (use_directory : Option String)
    (st : FState) : RunResult :=
  match GetTempdir.init w.freshDir use_directory st with
  | .error e => ⟨st, some e⟩
  | .ok (td, st1) =>
    let b := collect_emails_body w folder td.tempdir st1
    ⟨GetTempdir.exit td b.st, b.error⟩

/-! ### Filesystem lemma kit -/

theorem find?_key_filter_ne (l : List (String × FileData)) (p q : String)
    (h : q ≠ p) :
    (l.filter (fun e => e.1 != p)).find? (fun e => e.1 == q)
      = l.find? (fun e => e.1 == q) := by
  have hfun : (fun (e : String × FileData) =>
        decide ((e.1 != p) = true ∧ (e.1 == q) = true))
      = fun e => e.1 == q := by
    funext e
    rcases eq_or_ne e.1 q with hq | hq
    · simp [hq, bne_iff_ne, h]
    · simp [hq]
  rw [List.find?_filter, hfun]

theorem flookup_fwrite_self (st : FState) (p : String) (d : FileData) :
    flookup (fwrite st p d) p = some d := by
  simp [flookup, fwrite, funlink, List.find?_cons]

theorem flookup_fwrite_ne (st : FState) (p q : String) (d : FileData)
    (h : q ≠ p) :
    flookup (fwrite st p d) q = flookup st q := by
  simp [flookup, fwrite, funlink, List.find?_cons,
    show (p == q) = false by simp; exact fun hq => h hq.symm,
    find?_key_filter_ne st.files p q h]

theorem flookup_funlink_ne (st : FState) (p q : String) (h : q ≠ p) :
    flookup (funlink st p) q = flookup st q := by
  simp [flookup, funlink, find?_key_filter_ne st.files p q h]

theorem flookup_eq_none_of_fexists_false (st : FState) (p : String)
    (h : fexists st p = false) : flookup st p = none := by
  simp only [fexists, List.any_eq_false] at h
  simp only [flookup]
  rw [List.find?_eq_none.mpr h]
  rfl

theorem flookup_unlink_if_exists_self (st : FState) (p : String) :
    flookup (unlink_if_exists st p) p = none := by
  unfold unlink_if_exists
  by_cases h : fexists st p
  · simp only [h, if_true, flookup, funlink]
    have hall : ∀ x ∈ st.files.filter (fun e => e.1 != p), ¬ (x.1 == p) = true := by
      intro x hx
      have hx2 := (List.mem_filter.mp hx).2
      simp only [bne_iff_ne, ne_eq] at hx2
      simp [hx2]
    rw [List.find?_eq_none.mpr hall]
    rfl
  · simp only [h, if_false, Bool.false_eq_true]
    exact flookup_eq_none_of_fexists_false st p (by simpa using h)

theorem flookup_unlink_if_exists_ne (st : FState) (p q : String) (h : q ≠ p) :
    flookup (unlink_if_exists st p) q = flookup st q := by
  unfold unlink_if_exists
  by_cases he : fexists st p
  · simp [he, flookup_funlink_ne st p q h]
  · simp [he]

theorem fwrite_dirs (st : FState) (p : String) (d : FileData) :
    (fwrite st p d).dirs = st.dirs := rfl

theorem funlink_dirs (st : FState) (p : String) :
    (funlink st p).dirs = st.dirs := rfl

theorem unlink_if_exists_dirs (st : FState) (p : String) :
    (unlink_if_exists st p).dirs = st.dirs := by
  unfold unlink_if_exists
  by_cases h : fexists st p <;> simp [h, funlink_dirs]

theorem zip_step_dirs (mp zp : FPath) (st : FState) :
    (zip_step mp zp st).1.dirs = st.dirs := by
  unfold zip_step
  cases h : flookup (unlink_if_exists st zp.asString) mp.asString <;>
    simp [h, fwrite_dirs, unlink_if_exists_dirs]

theorem zip_and_post_dirs (w : World) (folder tempdir : String)
    (mp zp : FPath) (st : FState) :
    (zip_and_post w folder tempdir mp zp st).st.dirs = st.dirs := by
  unfold zip_and_post
  cases hz : (zip_step mp zp st).2 with
  | some e => simp [hz, zip_step_dirs]
  | none =>
    cases hp : place_message w tempdir folder (zip_step mp zp st).1 <;>
      simp [hz, hp, zip_step_dirs]

theorem collect_emails_body_dirs (w : World) (folder tempdir : String)
    (st : FState) :
    (collect_emails_body w folder tempdir st).st.dirs = st.dirs := by
  unfold collect_emails_body
  cases hm : w.mboxCreateErr with
  | some m => simp [unlink_if_exists_dirs]
  | none =>
    cases hc : open_connection w with
    | error e => simp [fwrite_dirs, unlink_if_exists_dirs]
    | ok u =>
      cases hr : (container_build w folder).2 with
      | some e => simp [hr, fwrite_dirs, unlink_if_exists_dirs]
      | none =>
        simp [hr, zip_and_post_dirs, fwrite_dirs, unlink_if_exists_dirs]

/-! ### Loop lemmas -/

theorem fetch_parse_loop_success (w : World) (uids : List String)
    (rawOf msgOf : String → Nat)
    (hall : ∀ x ∈ uids, w.fetch x = some (rawOf x) ∧ w.parse (rawOf x) = .ok (msgOf x)) :
    fetch_parse_loop w uids = (uids.map msgOf, none) := by
  induction uids with
  | nil => rfl
  | cons u rest ih =>
    have hu := hall u (by simp)
    have hrest : ∀ x ∈ rest, w.fetch x = some (rawOf x) ∧ w.parse (rawOf x) = .ok (msgOf x) :=
      fun x hx => hall x (by simp [hx])
    simp [fetch_parse_loop, hu.1, hu.2, ih hrest]

theorem fetch_parse_loop_fail (w : World) (pre : List String) (u : String)
    (post : List String) (e : PyErr) (rawOf msgOf : String → Nat)
    (hpre : ∀ x ∈ pre, w.fetch x = some (rawOf x) ∧ w.parse (rawOf x) = .ok (msgOf x))
    (hfail : (w.fetch u = none ∧ e = .imapRuntimeError "Fetch failed") ∨
             ∃ r, w.fetch u = some r ∧ w.parse r = .error e) :
    fetch_parse_loop w (pre ++ u :: post) = (pre.map msgOf, some e) := by
  induction pre with
  | nil =>
    rcases hfail with ⟨hf, he⟩ | ⟨r, hf, hp⟩
    · simp [fetch_parse_loop, hf, he]
    · simp [fetch_parse_loop, hf, hp]
  | cons a t ih =>
    have ha := hpre a (by simp)
    have ht : ∀ x ∈ t, w.fetch x = some (rawOf x) ∧ w.parse (rawOf x) = .ok (msgOf x) :=
      fun x hx => hpre x (by simp [hx])
    simp [fetch_parse_loop, ha.1, ha.2, ih ht]

theorem container_build_success (w : World) (folder : String)
    (rawOf msgOf : String → Nat)
    (hsel : w.selectOk folder = true) (hsearch : w.searchOk = true)
    (hall : ∀ x ∈ w.uids, w.fetch x = some (rawOf x) ∧ w.parse (rawOf x) = .ok (msgOf x)) :
    container_build w folder = (w.uids.map msgOf, none) := by
  simp [container_build, hsel, hsearch,
    fetch_parse_loop_success w w.uids rawOf msgOf hall]

theorem container_build_fail (w : World) (folder : String)
    (pre : List String) (u : String) (post : List String) (e : PyErr)
    (rawOf msgOf : String → Nat)
    (hsel : w.selectOk folder = true) (hsearch : w.searchOk = true)
    (huids : w.uids = pre ++ u :: post)
    (hpre : ∀ x ∈ pre, w.fetch x = some (rawOf x) ∧ w.parse (rawOf x) = .ok (msgOf x))
    (hfail : (w.fetch u = none ∧ e = .imapRuntimeError "Fetch failed") ∨
             ∃ r, w.fetch u = some r ∧ w.parse r = .error e) :
    container_build w folder = (pre.map msgOf, some e) := by
  simp [container_build, hsel, hsearch, huids,
    fetch_parse_loop_fail w pre u post e rawOf msgOf hpre hfail]

/-! ### String and path lemmas -/

theorem string_append_cancel_left (a b c : String) (h : a ++ b = a ++ c) :
    b = c := by
  apply String.ext
  have h2 := congrArg String.data h
  rw [String.data_append, String.data_append] at h2
  exact List.append_cancel_left h2

theorem make_file_name_base_mbox (dir folder : String) :
    (make_file_name dir folder "mbox").base = translate_folder folder ++ ".mbox" := rfl

theorem make_file_name_base_zip (dir folder : String) :
    (make_file_name dir folder "zip").base = translate_folder folder ++ ".zip" := rfl

theorem make_file_name_mbox_ne_zip (dir folder : String) :
    (make_file_name dir folder "mbox").asString
      ≠ (make_file_name dir folder "zip").asString := by
  intro h
  have h0 : (dir ++ "/") ++ (translate_folder folder ++ ".mbox")
      = (dir ++ "/") ++ (translate_folder folder ++ ".zip") := h
  have h1 := string_append_cancel_left _ _ _ h0
  have h2 := string_append_cancel_left _ _ _ h1
  exact absurd h2 (by decide)

theorem inDir_make_file_name (dir folder ext : String) :
    inDir dir (make_file_name dir folder ext).asString = true := by
  simp only [inDir, make_file_name, FPath.asString, String.data_append,
    List.isPrefixOf_iff_prefix]
  exact List.prefix_append _ _

/-! ### Reduction lemmas for the pipeline -/

theorem dexists_of_mem (st : FState) (d : String) (h : d ∈ st.dirs) :
    dexists st d = true := by
  simpa [dexists] using h

theorem collect_emails_supplied (w : World) (folder d : String) (st : FState)
    (hne : d.isEmpty = false) (hd : dexists st d = true) :
    collect_emails w folder (some d) st
      = ⟨(collect_emails_body w folder d st).st,
         (collect_emails_body w folder d st).error⟩ := by
  simp [collect_emails, GetTempdir.init, pyFalsy, hne, hd, GetTempdir.exit]

theorem collect_emails_generated (w : World) (folder : String)
    (u : Option String) (st : FState) (hu : pyFalsy u = true) :
    collect_emails w folder u st
      = ⟨GetTempdir.exit ⟨w.freshDir, true⟩
           (collect_emails_body w folder w.freshDir
             { st with dirs := w.freshDir :: st.dirs }).st,
         (collect_emails_body w folder w.freshDir
           { st with dirs := w.freshDir :: st.dirs }).error⟩ := by
  simp [collect_emails, GetTempdir.init, hu]

theorem collect_emails_body_authFail (w : World) (folder tempdir : String)
    (st : FState) (hm : w.mboxCreateErr = none) (hauth : w.authOk = false) :
    collect_emails_body w folder tempdir st
      = ⟨fwrite (unlink_if_exists st (make_file_name tempdir folder "mbox").asString)
           (make_file_name tempdir folder "mbox").asString (.mboxData []),
         some (.imapRuntimeError w.authMsg), false⟩ := by
  simp [collect_emails_body, hm, open_connection, hauth]

theorem collect_emails_body_loopFail (w : World) (folder tempdir : String)
    (st : FState) (e : PyErr)
    (hm : w.mboxCreateErr = none) (hauth : w.authOk = true)
    (hr : (container_build w folder).2 = some e) :
    collect_emails_body w folder tempdir st
      = ⟨fwrite (fwrite (unlink_if_exists st (make_file_name tempdir folder "mbox").asString)
             (make_file_name tempdir folder "mbox").asString (.mboxData []))
           (make_file_name tempdir folder "mbox").asString
           (.mboxData (container_build w folder).1),
         some e, true⟩ := by
  simp [collect_emails_body, hm, open_connection, hauth, hr]

theorem collect_emails_body_loopOk (w : World) (folder tempdir : String)
    (st : FState)
    (hm : w.mboxCreateErr = none) (hauth : w.authOk = true)
    (hr : (container_build w folder).2 = none) :
    collect_emails_body w folder tempdir st
      = zip_and_post w folder tempdir (make_file_name tempdir folder "mbox")
          (make_file_name tempdir folder "zip")
          (fwrite (fwrite (unlink_if_exists st (make_file_name tempdir folder "mbox").asString)
             (make_file_name tempdir folder "mbox").asString (.mboxData []))
           (make_file_name tempdir folder "mbox").asString
           (.mboxData (container_build w folder).1)) := by
  simp [collect_emails_body, hm, open_connection, hauth, hr]

theorem zip_and_post_reduce (w : World) (folder tempdir : String)
    (mp zp : FPath) (st : FState) (fd : FileData)
    (hzp : zp = make_file_name tempdir folder "zip")
    (hne : mp.asString ≠ zp.asString)
    (hlk : flookup st mp.asString = some fd) :
    zip_and_post w folder tempdir mp zp st
      = ⟨fwrite (unlink_if_exists st zp.asString) zp.asString
           (.zipData [(mp.base, fd)]),
         if w.appendOk then none
         else some (.runtimeError ("Cannot post message: " ++ w.appendMsg)),
         true⟩ := by
  subst hzp
  have hlk1 : flookup (unlink_if_exists st
      (make_file_name tempdir folder "zip").asString) mp.asString = some fd := by
    rw [flookup_unlink_if_exists_ne st _ mp.asString hne]
    exact hlk
  unfold zip_and_post zip_step
  simp only [hlk1]
  unfold place_message
  cases happ : w.appendOk <;> simp [happ, flookup_fwrite_self]

/-! ### Further kit lemmas -/

theorem collect_emails_body_mboxErr (w : World) (folder tempdir : String)
    (st : FState) (m : String) (hm : w.mboxCreateErr = some m) :
    collect_emails_body w folder tempdir st
      = ⟨unlink_if_exists st (make_file_name tempdir folder "mbox").asString,
         some (.osError m), false⟩ := by
  simp [collect_emails_body, hm]

theorem collect_emails_missing_dir (w : World) (folder d2 : String) (st : FState)
    (hne2 : d2.isEmpty = false) (hd2 : dexists st d2 = false)
    (hf2 : fexists st d2 = false) :
    collect_emails w folder (some d2) st
      = ⟨st, some (.fileNotFoundError ("Can't find temp directory " ++ d2))⟩ := by
  simp [collect_emails, GetTempdir.init, pyFalsy, hne2, hd2, hf2]

theorem collect_emails_body_success (w : World) (folder tempdir : String)
    (st : FState)
    (hm : w.mboxCreateErr = none) (hauth : w.authOk = true)
    (hr : (container_build w folder).2 = none) :
    collect_emails_body w folder tempdir st
      = ⟨fwrite (unlink_if_exists
            (fwrite (fwrite (unlink_if_exists st
                 (make_file_name tempdir folder "mbox").asString)
               (make_file_name tempdir folder "mbox").asString (.mboxData []))
             (make_file_name tempdir folder "mbox").asString
             (.mboxData (container_build w folder).1))
            (make_file_name tempdir folder "zip").asString)
          (make_file_name tempdir folder "zip").asString
          (.zipData [((make_file_name tempdir folder "mbox").base,
                      .mboxData (container_build w folder).1)]),
         if w.appendOk then none
         else some (.runtimeError ("Cannot post message: " ++ w.appendMsg)),
         true⟩ := by
  rw [collect_emails_body_loopOk w folder tempdir st hm hauth hr]
  exact zip_and_post_reduce w folder tempdir _ _ _ _ rfl
    (make_file_name_mbox_ne_zip tempdir folder)
    (flookup_fwrite_self _ _ _)

theorem collect_emails_body_success_flookup (w : World) (folder tempdir : String)
    (st : FState)
    (hm : w.mboxCreateErr = none) (hauth : w.authOk = true)
    (hr : (container_build w folder).2 = none) :
    flookup (collect_emails_body w folder tempdir st).st
        (make_file_name tempdir folder "mbox").asString
      = some (.mboxData (container_build w folder).1) ∧
    flookup (collect_emails_body w folder tempdir st).st
        (make_file_name tempdir folder "zip").asString
      = some (.zipData [((make_file_name tempdir folder "mbox").base,
                         .mboxData (container_build w folder).1)]) ∧
    ∀ q, q ≠ (make_file_name tempdir folder "mbox").asString →
      q ≠ (make_file_name tempdir folder "zip").asString →
      flookup (collect_emails_body w folder tempdir st).st q = flookup st q := by
  have hmz := make_file_name_mbox_ne_zip tempdir folder
  rw [collect_emails_body_success w folder tempdir st hm hauth hr]
  refine ⟨?_, ?_, ?_⟩
  · rw [flookup_fwrite_ne _ _ _ _ hmz, flookup_unlink_if_exists_ne _ _ _ hmz,
      flookup_fwrite_self]
  · exact flookup_fwrite_self _ _ _
  · intro q hqm hqz
    rw [flookup_fwrite_ne _ _ _ _ hqz, flookup_unlink_if_exists_ne _ _ _ hqz,
      flookup_fwrite_ne _ _ _ _ hqm, flookup_fwrite_ne _ _ _ _ hqm,
      flookup_unlink_if_exists_ne _ _ _ hqm]

theorem flookup_none_of_outside (st : FState) (d q : String)
    (hclean : ∀ e ∈ st.files, inDir d e.1 = false) (hq : inDir d q = true) :
    flookup st q = none := by
  simp only [flookup]
  have hall : ∀ x ∈ st.files, ¬ (x.1 == q) = true := by
    intro x hx hbeq
    have hxq : x.1 = q := by simpa using hbeq
    have := hclean x hx
    rw [hxq, hq] at this
    cases this
  rw [List.find?_eq_none.mpr hall]
  rfl

theorem flookup_exit_owned (tempdir : String) (st : FState) (p : String)
    (h : inDir tempdir p = true) :
    flookup (GetTempdir.exit ⟨tempdir, true⟩ st) p = none := by
  show flookup ⟨st.files.filter (fun e => !(inDir tempdir e.1)),
    st.dirs.erase tempdir⟩ p = none
  simp only [flookup]
  have hall : ∀ x ∈ st.files.filter (fun e => !(inDir tempdir e.1)),
      ¬ (x.1 == p) = true := by
    intro x hx hbeq
    have hxp : x.1 = p := by simpa using hbeq
    have h2 := (List.mem_filter.mp hx).2
    rw [hxp, h] at h2
    cases h2
  rw [List.find?_eq_none.mpr hall]
  rfl

theorem exit_owned_dirs (tempdir : String) (st : FState) :
    (GetTempdir.exit ⟨tempdir, true⟩ st).dirs = st.dirs.erase tempdir := rfl

theorem exit_not_owned (tempdir : String) (st : FState) :
    GetTempdir.exit ⟨tempdir, false⟩ st = st := rfl

/-! ### Spec-side sanitization rule (refinement target for C6) -/

/-- Sanitization as the spec words it: the characters `/`, `*`, `.`, and space
are each replaced with `_`, all other characters are unchanged.  Stated with
character literals, to be compared against the source's codepoint table. -/
def sanitizeSpecChar (c : Char) : Char :=
  if c = '/' ∨ c = '*' ∨ c = '.' ∨ c = '\x20' then '_' else c

theorem translateChar_eq_spec (c : Char) : translateChar c = sanitizeSpecChar c := by
  unfold translateChar sanitizeSpecChar
  have h47 : Char.ofNat 47 = '/' := by decide
  have h42 : Char.ofNat 42 = '*' := by decide
  have h46 : Char.ofNat 46 = '.' := by decide
  have h32 : Char.ofNat 32 = '\x20' := by decide
  have h95 : Char.ofNat 95 = '_' := by decide
  rw [h47, h42, h46, h32, h95]

/-! ### Concrete worlds and states used by witnesses and counterexamples -/

def w0 : World where
  authOk := true
  authMsg := "auth failed"
  selectOk := fun _ => true
  searchOk := true
  uids := []
  fetch := fun _ => none
  parse := fun n => .ok n
  appendOk := true
  appendMsg := "refused"
  mboxCreateErr := none
  freshDir := "/tmp/gen"

def st0 : FState := ⟨[], ["/d"]⟩

def wAuthFail : World := { w0 with authOk := false }

def wSelectFail : World := { w0 with selectOk := fun _ => false }

def wDiskFail : World := { w0 with mboxCreateErr := some "disk full" }

def wFetchFail3 : World :=
  { w0 with uids := ["3", "7"], fetch := fun u => if u = "3" then none else some 1 }

def wFetchFail7 : World :=
  { w0 with uids := ["3", "7"], fetch := fun u => if u = "7" then none else some 1 }

/-! ### The claims -/

/-- C6: for every folder name, the base name of the container and archive
files equals the folder name with each occurrence of `/`, `*`, `.`, and space
replaced by `_` (all other characters unchanged), followed by the fixed
extension; in particular the folder name "testing/one" yields base names
"testing_one.mbox" and "testing_one.zip". -/
theorem C6_sanitization (dir folder : String) :
    (make_file_name dir folder "mbox").base
        = String.mk (folder.data.map sanitizeSpecChar) ++ ".mbox" ∧
    (make_file_name dir folder "zip").base
        = String.mk (folder.data.map sanitizeSpecChar) ++ ".zip" ∧
    (make_file_name dir "testing/one" "mbox").base = "testing_one.mbox" ∧
    (make_file_name dir "testing/one" "zip").base = "testing_one.zip" := by
  have hfun : translateChar = sanitizeSpecChar := funext translateChar_eq_spec
  have hmap : ∀ s : String, translate_folder s = String.mk (s.data.map sanitizeSpecChar) := by
    intro s
    unfold translate_folder
    rw [hfun]
  refine ⟨?_, ?_, ?_, ?_⟩
  · rw [make_file_name_base_mbox, hmap]
  · rw [make_file_name_base_zip, hmap]
  · rw [make_file_name_base_mbox]
    decide
  · rw [make_file_name_base_zip]
    decide

/-- C10: a falsy use_directory argument — either absent (None) or the empty
string — makes GetTempdir mint a fresh system temporary directory owned by
the run (remove_directory set, deleted with its contents at scope exit),
rather than treating the empty string as a caller-supplied path and raising
the missing-directory error. -/
theorem C10_falsy_use_directory (fresh : String) (st st2 : FState) (p : String)
    (hp : inDir fresh p = true) :
    GetTempdir.init fresh none st
        = .ok (⟨fresh, true⟩, { st with dirs := fresh :: st.dirs }) ∧
    GetTempdir.init fresh (some "") st
        = .ok (⟨fresh, true⟩, { st with dirs := fresh :: st.dirs }) ∧
    flookup (GetTempdir.exit ⟨fresh, true⟩ st2) p = none ∧
    (GetTempdir.exit ⟨fresh, true⟩ st2).dirs = st2.dirs.erase fresh := by
  exact ⟨rfl, rfl, flookup_exit_owned fresh st2 p hp, rfl⟩

theorem C10_witness :
    inDir "/tmp/g" "/tmp/g/a.mbox" = true ∧
    GetTempdir.init "/tmp/g" (some "") st0
        = .ok (⟨"/tmp/g", true⟩, { st0 with dirs := "/tmp/g" :: st0.dirs }) ∧
    flookup (GetTempdir.exit ⟨"/tmp/g", true⟩
        ⟨[("/tmp/g/a.mbox", .mboxData [5])], ["/tmp/g"]⟩) "/tmp/g/a.mbox" = none :=
  ⟨by decide,
   (C10_falsy_use_directory "/tmp/g" st0
      ⟨[("/tmp/g/a.mbox", .mboxData [5])], ["/tmp/g"]⟩ "/tmp/g/a.mbox" (by decide)).2.1,
   (C10_falsy_use_directory "/tmp/g" st0
      ⟨[("/tmp/g/a.mbox", .mboxData [5])], ["/tmp/g"]⟩ "/tmp/g/a.mbox" (by decide)).2.2.1⟩

/-- C9: the compression step succeeds on a present container file and
produces a single-entry archive whose one entry is the verbatim contents of
the container file, stored under the container's base name; the container
file itself and every other path are left unmodified. -/
theorem C9_compression_faithful (mp zp : FPath) (st : FState) (fd : FileData)
    (hne : mp.asString ≠ zp.asString)
    (hlk : flookup st mp.asString = some fd) :
    (zip_step mp zp st).2 = none ∧
    flookup (zip_step mp zp st).1 zp.asString
        = some (.zipData [(mp.base, fd)]) ∧
    flookup (zip_step mp zp st).1 mp.asString = some fd ∧
    ∀ q, q ≠ zp.asString → flookup (zip_step mp zp st).1 q = flookup st q := by
  have hlk1 : flookup (unlink_if_exists st zp.asString) mp.asString = some fd := by
    rw [flookup_unlink_if_exists_ne st zp.asString mp.asString hne]
    exact hlk
  have hred : zip_step mp zp st
      = (fwrite (unlink_if_exists st zp.asString) zp.asString
           (.zipData [(mp.base, fd)]), none) := by
    unfold zip_step
    simp only [hlk1]
  rw [hred]
  refine ⟨rfl, flookup_fwrite_self _ _ _, ?_, ?_⟩
  · rw [flookup_fwrite_ne _ _ _ _ hne]
    exact hlk1
  · intro q hq
    rw [flookup_fwrite_ne _ _ _ _ hq, flookup_unlink_if_exists_ne _ _ _ hq]

theorem C9_witness :
    ("/d/a.mbox" : String) ≠ "/d/a.zip" ∧
    flookup ⟨[("/d/a.mbox", .mboxData [1, 2])], ["/d"]⟩ "/d/a.mbox"
        = some (.mboxData [1, 2]) ∧
    flookup (zip_step ⟨"/d", "a.mbox"⟩ ⟨"/d", "a.zip"⟩
        ⟨[("/d/a.mbox", .mboxData [1, 2])], ["/d"]⟩).1 "/d/a.zip"
        = some (.zipData [("a.mbox", .mboxData [1, 2])]) ∧
    flookup (zip_step ⟨"/d", "a.mbox"⟩ ⟨"/d", "a.zip"⟩
        ⟨[("/d/a.mbox", .mboxData [1, 2])], ["/d"]⟩).1 "/d/a.mbox"
        = some (.mboxData [1, 2]) :=
  ⟨by decide, rfl,
   (C9_compression_faithful ⟨"/d", "a.mbox"⟩ ⟨"/d", "a.zip"⟩
      ⟨[("/d/a.mbox", .mboxData [1, 2])], ["/d"]⟩ (.mboxData [1, 2])
      (by decide) rfl).2.1,
   (C9_compression_faithful ⟨"/d", "a.mbox"⟩ ⟨"/d", "a.zip"⟩
      ⟨[("/d/a.mbox", .mboxData [1, 2])], ["/d"]⟩ (.mboxData [1, 2])
      (by decide) rfl).2.2.1⟩

/-- C8 counterexample: two runs whose failing identifiers differ ("3" in one,
"7" in the other) raise equal errors, both the constant
ImapRuntimeError("Fetch failed"); the error therefore cannot carry the
failing identifier, and the caller cannot tell which message failed. -/
theorem C8_counterexample :
    wFetchFail3.fetch "3" = none ∧ wFetchFail3.fetch "7" = some 1 ∧
    wFetchFail7.fetch "7" = none ∧ wFetchFail7.fetch "3" = some 1 ∧
    (container_build wFetchFail3 "F").1 = [] ∧
    (container_build wFetchFail7 "F").1 = [1] ∧
    (container_build wFetchFail3 "F").2 = some (.imapRuntimeError "Fetch failed") ∧
    (container_build wFetchFail7 "F").2 = (container_build wFetchFail3 "F").2 := by
  refine ⟨rfl, rfl, rfl, rfl, rfl, rfl, rfl, rfl⟩

/-- C8 amended: a failed fetch makes the folder reader raise
ImapRuntimeError with the fixed message "Fetch failed", which does not carry
the failing identifier (only the folder-select error embeds a datum, the
folder name). -/
theorem C8_fetch_error_fixed_message (w : World) (folder : String)
    (pre : List String) (u : String) (post : List String)
    (rawOf msgOf : String → Nat)
    (hsel : w.selectOk folder = true) (hsearch : w.searchOk = true)
    (huids : w.uids = pre ++ u :: post)
    (hpre : ∀ x ∈ pre, w.fetch x = some (rawOf x) ∧ w.parse (rawOf x) = .ok (msgOf x))
    (hfail : w.fetch u = none) :
    (container_build w folder).2 = some (.imapRuntimeError "Fetch failed") := by
  rw [container_build_fail w folder pre u post _ rawOf msgOf hsel hsearch huids hpre
    (Or.inl ⟨hfail, rfl⟩)]

theorem C8_witness :
    wFetchFail3.selectOk "F" = true ∧ wFetchFail3.fetch "3" = none ∧
    (container_build wFetchFail3 "F").2 = some (.imapRuntimeError "Fetch failed") :=
  ⟨rfl, rfl,
   C8_fetch_error_fixed_message wFetchFail3 "F" [] "3" ["7"]
     (fun _ => 0) (fun _ => 0) rfl rfl rfl
     (by intro x hx; exact absurd hx (List.not_mem_nil x)) rfl⟩

def wTwo : World :=
  { w0 with uids := ["1", "2"], fetch := fun u => if u = "1" then some 10 else some 20 }

/-- C1: if the K-th of N message fetches (or the parse of the K-th message)
fails, the whole build aborts: the run's error is exactly the failure's
error, the container file is closed (flushed) before control returns, and on
disk it holds exactly the first K-1 successfully parsed messages — no K-th
fragment, nothing skipped-and-continued. -/
theorem C1_fail_fast (w : World) (folder d : String) (st : FState)
    (pre : List String) (u : String) (post : List String) (e : PyErr)
    (rawOf msgOf : String → Nat)
    (hne : d.isEmpty = false) (hd : d ∈ st.dirs)
    (hm : w.mboxCreateErr = none) (hauth : w.authOk = true)
    (hsel : w.selectOk folder = true) (hsearch : w.searchOk = true)
    (huids : w.uids = pre ++ u :: post)
    (hpre : ∀ x ∈ pre, w.fetch x = some (rawOf x) ∧ w.parse (rawOf x) = .ok (msgOf x))
    (hfail : (w.fetch u = none ∧ e = .imapRuntimeError "Fetch failed") ∨
             ∃ r, w.fetch u = some r ∧ w.parse r = .error e) :
    (collect_emails w folder (some d) st).error = some e ∧
    flookup (collect_emails w folder (some d) st).st
        (make_file_name d folder "mbox").asString
      = some (.mboxData (pre.map msgOf)) ∧
    (collect_emails_body w folder d st).mboxClosed = true := by
  have hcb := container_build_fail w folder pre u post e rawOf msgOf hsel hsearch
    huids hpre hfail
  have hr2 : (container_build w folder).2 = some e := by rw [hcb]
  have hbody := collect_emails_body_loopFail w folder d st e hm hauth hr2
  rw [collect_emails_supplied w folder d st hne (dexists_of_mem st d hd)]
  refine ⟨?_, ?_, ?_⟩
  · simp only [hbody]
  · simp only [hbody]
    rw [flookup_fwrite_self, hcb]
  · simp only [hbody]

theorem C1_witness :
    wFetchFail7.fetch "3" = some 1 ∧ wFetchFail7.fetch "7" = none ∧
    (collect_emails wFetchFail7 "F" (some "/d") st0).error
        = some (.imapRuntimeError "Fetch failed") ∧
    flookup (collect_emails wFetchFail7 "F" (some "/d") st0).st
        (make_file_name "/d" "F" "mbox").asString
      = some (.mboxData [1]) ∧
    (collect_emails_body wFetchFail7 "F" "/d" st0).mboxClosed = true := by
  have h := C1_fail_fast wFetchFail7 "F" "/d" st0 ["3"] "7" []
    (.imapRuntimeError "Fetch failed") (fun _ => 1) (fun _ => 1)
    rfl (by decide) rfl rfl rfl rfl rfl
    (by intro x hx; rw [List.mem_singleton] at hx; subst hx; exact ⟨rfl, rfl⟩)
    (Or.inl ⟨rfl, rfl⟩)
  exact ⟨rfl, rfl, h.1, h.2.1, h.2.2⟩

/-- C2: when every fetch and parse succeeds, the messages in the container
file are exactly the fetched messages in the order the enumeration returned
the identifiers — one fetch per identifier, no reordering. -/
theorem C2_order_preservation (w : World) (folder d : String) (st : FState)
    (rawOf msgOf : String → Nat)
    (hne : d.isEmpty = false) (hd : d ∈ st.dirs)
    (hm : w.mboxCreateErr = none) (hauth : w.authOk = true)
    (hsel : w.selectOk folder = true) (hsearch : w.searchOk = true)
    (hall : ∀ x ∈ w.uids, w.fetch x = some (rawOf x) ∧ w.parse (rawOf x) = .ok (msgOf x)) :
    container_build w folder = (w.uids.map msgOf, none) ∧
    flookup (collect_emails w folder (some d) st).st
        (make_file_name d folder "mbox").asString
      = some (.mboxData (w.uids.map msgOf)) := by
  have hcb := container_build_success w folder rawOf msgOf hsel hsearch hall
  have hr : (container_build w folder).2 = none := by rw [hcb]
  refine ⟨hcb, ?_⟩
  rw [collect_emails_supplied w folder d st hne (dexists_of_mem st d hd)]
  have hlk := (collect_emails_body_success_flookup w folder d st hm hauth hr).1
  simpa [hcb] using hlk

theorem C2_witness :
    wTwo.uids = ["1", "2"] ∧
    flookup (collect_emails wTwo "F" (some "/d") st0).st
        (make_file_name "/d" "F" "mbox").asString
      = some (.mboxData (wTwo.uids.map (fun u => if u = "1" then 10 else 20))) :=
  ⟨rfl,
   (C2_order_preservation wTwo "F" "/d" st0
      (fun u => if u = "1" then 10 else 20) (fun u => if u = "1" then 10 else 20)
      rfl (by decide) rfl rfl rfl rfl
      (by
        intro x hx
        fin_cases hx <;> exact ⟨rfl, rfl⟩)).2⟩

/-- C3: on every exit from the run, success or failure, a system-generated
temporary directory is deleted together with its contents before control
returns (and the body's error, if any, is what the run reports, unmasked),
while a caller-supplied directory is never deleted: the release step is a
no-op for it, and the body's error again propagates unchanged. -/
theorem C3_tempdir_cleanup (w : World) (folder d : String) (u : Option String)
    (st : FState)
    (hu : pyFalsy u = true) (hne : d.isEmpty = false) (hd : d ∈ st.dirs) :
    (∀ p, inDir w.freshDir p = true →
        flookup (collect_emails w folder u st).st p = none) ∧
    (collect_emails w folder u st).st.dirs = st.dirs ∧
    (collect_emails w folder u st).error
        = (collect_emails_body w folder w.freshDir
            { st with dirs := w.freshDir :: st.dirs }).error ∧
    (collect_emails w folder (some d) st).st
        = (collect_emails_body w folder d st).st ∧
    d ∈ (collect_emails w folder (some d) st).st.dirs ∧
    (collect_emails w folder (some d) st).error
        = (collect_emails_body w folder d st).error := by
  have hgen := collect_emails_generated w folder u st hu
  have hsup := collect_emails_supplied w folder d st hne (dexists_of_mem st d hd)
  refine ⟨?_, ?_, ?_, ?_, ?_, ?_⟩
  · intro p hp
    rw [hgen]
    exact flookup_exit_owned w.freshDir _ p hp
  · rw [hgen]
    show (GetTempdir.exit ⟨w.freshDir, true⟩ _).dirs = st.dirs
    rw [exit_owned_dirs, collect_emails_body_dirs]
    exact List.erase_cons_head _ _
  · rw [hgen]
  · rw [hsup]
  · rw [hsup]
    show d ∈ (collect_emails_body w folder d st).st.dirs
    rw [collect_emails_body_dirs]
    exact hd
  · rw [hsup]

theorem C3_witness :
    pyFalsy none = true ∧ "/d" ∈ st0.dirs ∧
    (collect_emails wAuthFail "F" none st0).st.dirs = st0.dirs ∧
    (collect_emails wAuthFail "F" (some "/d") st0).st
        = (collect_emails_body wAuthFail "F" "/d" st0).st ∧
    "/d" ∈ (collect_emails wAuthFail "F" (some "/d") st0).st.dirs := by
  have h := C3_tempdir_cleanup wAuthFail "F" "/d" none st0 rfl rfl (by decide)
  exact ⟨rfl, by decide, h.2.1, h.2.2.2.1, h.2.2.2.2.1⟩

/-- C4 counterexample: in a run whose authentication fails, the
temporary-directory scope already holds a created file when the error is
raised — the empty container file exists on disk after the aborted run
(caller-supplied scope, so the file survives and is observable), so the
claim "the authentication error is raised before any temporary file has been
created" is false of the code. -/
theorem C4_counterexample :
    wAuthFail.authOk = false ∧
    (collect_emails wAuthFail "F" (some "/d") st0).error
        = some (.imapRuntimeError "auth failed") ∧
    flookup (collect_emails wAuthFail "F" (some "/d") st0).st "/d/F.mbox"
        = some (.mboxData []) :=
  ⟨rfl, rfl, rfl⟩

/-- C4 amended: when authentication fails, the error is raised after exactly
one temporary file — the still-empty container file that `mailbox.mbox`
creates eagerly — exists in the temporary-directory scope, and before any
message is fetched or written; a generated scope is still fully cleaned up
(all files under it and the directory itself removed) before the error,
which is the authentication error unmasked, reaches the caller. -/
theorem C4_auth_failure (w : World) (folder : String) (u : Option String)
    (st : FState)
    (hm : w.mboxCreateErr = none) (hauth : w.authOk = false)
    (hu : pyFalsy u = true) :
    (collect_emails_body w folder w.freshDir
        { st with dirs := w.freshDir :: st.dirs }).error
      = some (.imapRuntimeError w.authMsg) ∧
    flookup (collect_emails_body w folder w.freshDir
        { st with dirs := w.freshDir :: st.dirs }).st
        (make_file_name w.freshDir folder "mbox").asString
      = some (.mboxData []) ∧
    (collect_emails w folder u st).error = some (.imapRuntimeError w.authMsg) ∧
    (∀ p, inDir w.freshDir p = true →
        flookup (collect_emails w folder u st).st p = none) ∧
    (collect_emails w folder u st).st.dirs = st.dirs := by
  have hb := collect_emails_body_authFail w folder w.freshDir
    { st with dirs := w.freshDir :: st.dirs } hm hauth
  have hgen := collect_emails_generated w folder u st hu
  refine ⟨?_, ?_, ?_, ?_, ?_⟩
  · simp only [hb]
  · simp only [hb]
    exact flookup_fwrite_self _ _ _
  · rw [hgen]
    simp only [hb]
  · intro p hp
    rw [hgen]
    exact flookup_exit_owned w.freshDir _ p hp
  · rw [hgen]
    show (GetTempdir.exit ⟨w.freshDir, true⟩ _).dirs = st.dirs
    rw [exit_owned_dirs, collect_emails_body_dirs]
    exact List.erase_cons_head _ _

theorem C4_witness :
    wAuthFail.authOk = false ∧ pyFalsy none = true ∧
    (collect_emails wAuthFail "F" none st0).error
        = some (.imapRuntimeError "auth failed") ∧
    (collect_emails wAuthFail "F" none st0).st.dirs = st0.dirs := by
  have h := C4_auth_failure wAuthFail "F" none st0 rfl rfl rfl
  exact ⟨rfl, rfl, h.2.2.1, h.2.2.2.2⟩

/-- C5 counterexample: an authentication failure and a folder-select failure
surface with the same Python exception class (ImapRuntimeError), so the two
are not distinguishable by error kind, only by message text; and a local I/O
failure at container creation propagates untagged as a plain OSError rather
than any dedicated container/compression kind. -/
theorem C5_counterexample :
    (collect_emails wAuthFail "F" (some "/d") st0).error
        = some (.imapRuntimeError "auth failed") ∧
    (collect_emails wSelectFail "F" (some "/d") st0).error
        = some (.imapRuntimeError "Cannot select folder \"F\".") ∧
    PyErr.kind (.imapRuntimeError "auth failed")
        = PyErr.kind (.imapRuntimeError "Cannot select folder \"F\".") ∧
    (collect_emails wDiskFail "F" (some "/d") st0).error
        = some (.osError "disk full") ∧
    PyErr.kind (.osError "disk full") = "OSError" :=
  ⟨rfl, rfl, rfl, rfl, rfl⟩

/-- C5 amended: failures do reach the caller unmasked, but the tagging is
coarser than the spec's six kinds: connection/authentication, folder-select,
enumeration and fetch failures all carry the single class ImapRuntimeError
(distinguishable from each other only by message text); a missing
caller-supplied directory carries FileNotFoundError; a rejected post carries
RuntimeError; those three classes are pairwise distinct; and a local write
failure at container creation propagates untagged as the underlying OSError
(there is no ContainerError or CompressionError class). -/
theorem C5_error_kinds (w : World) (folder d d2 m : String) (st : FState)
    (rawOf msgOf : String → Nat)
    (hne : d.isEmpty = false) (hd : d ∈ st.dirs)
    (hne2 : d2.isEmpty = false) (hd2 : dexists st d2 = false)
    (hf2 : fexists st d2 = false)
    (hsearch : w.searchOk = true)
    (hall : ∀ x ∈ w.uids, w.fetch x = some (rawOf x) ∧ w.parse (rawOf x) = .ok (msgOf x)) :
    (collect_emails { w with authOk := false, mboxCreateErr := none }
        folder (some d) st).error
      = some (.imapRuntimeError w.authMsg) ∧
    (collect_emails { w with authOk := true, mboxCreateErr := none, selectOk := fun _ => false } folder (some d) st).error
      = some (.imapRuntimeError ("Cannot select folder \"" ++ folder ++ "\".")) ∧
    PyErr.kind (.imapRuntimeError w.authMsg)
      = PyErr.kind (.imapRuntimeError ("Cannot select folder \"" ++ folder ++ "\".")) ∧
    (collect_emails w folder (some d2) st).error
      = some (.fileNotFoundError ("Can't find temp directory " ++ d2)) ∧
    (collect_emails { w with authOk := true, mboxCreateErr := none, selectOk := fun _ => true, appendOk := false } folder (some d) st).error
      = some (.runtimeError ("Cannot post message: " ++ w.appendMsg)) ∧
    (collect_emails { w with mboxCreateErr := some m } folder (some d) st).error
      = some (.osError m) ∧
    PyErr.kind (.imapRuntimeError w.authMsg) ≠ PyErr.kind (.fileNotFoundError d2) ∧
    PyErr.kind (.imapRuntimeError w.authMsg) ≠ PyErr.kind (.runtimeError w.appendMsg) ∧
    PyErr.kind (.fileNotFoundError d2) ≠ PyErr.kind (.runtimeError w.appendMsg) ∧
    PyErr.kind (.osError m) ≠ PyErr.kind (.imapRuntimeError w.authMsg) := by
  have hdx := dexists_of_mem st d hd
  refine ⟨?_, ?_, rfl, ?_, ?_, ?_, ?_, ?_, ?_, ?_⟩
  · rw [collect_emails_supplied { w with authOk := false, mboxCreateErr := none }
        folder d st hne hdx,
      collect_emails_body_authFail { w with authOk := false, mboxCreateErr := none }
        folder d st rfl rfl]
  · rw [collect_emails_supplied
        { w with authOk := true, mboxCreateErr := none, selectOk := fun _ => false }
        folder d st hne hdx,
      collect_emails_body_loopFail
        { w with authOk := true, mboxCreateErr := none, selectOk := fun _ => false }
        folder d st (.imapRuntimeError ("Cannot select folder \"" ++ folder ++ "\"."))
        rfl rfl rfl]
  · rw [collect_emails_missing_dir w folder d2 st hne2 hd2 hf2]
  · have hr : (container_build { w with authOk := true, mboxCreateErr := none, selectOk := fun _ => true, appendOk := false } folder).2 = none := by
      rw [container_build_success
        { w with authOk := true, mboxCreateErr := none, selectOk := fun _ => true, appendOk := false }
        folder rawOf msgOf rfl hsearch hall]
    rw [collect_emails_supplied
        { w with authOk := true, mboxCreateErr := none, selectOk := fun _ => true, appendOk := false }
        folder d st hne hdx,
      collect_emails_body_success
        { w with authOk := true, mboxCreateErr := none, selectOk := fun _ => true, appendOk := false }
        folder d st rfl rfl hr]
    rfl
  · rw [collect_emails_supplied { w with mboxCreateErr := some m } folder d st hne hdx,
      collect_emails_body_mboxErr { w with mboxCreateErr := some m } folder d st m rfl]
  · show ("ImapRuntimeError" : String) ≠ "FileNotFoundError"
    decide
  · show ("ImapRuntimeError" : String) ≠ "RuntimeError"
    decide
  · show ("FileNotFoundError" : String) ≠ "RuntimeError"
    decide
  · show ("OSError" : String) ≠ "ImapRuntimeError"
    decide

theorem C5_witness :
    "/d" ∈ st0.dirs ∧ dexists st0 "/nope" = false ∧
    (collect_emails { w0 with authOk := false, mboxCreateErr := none }
        "F" (some "/d") st0).error = some (.imapRuntimeError "auth failed") ∧
    (collect_emails w0 "F" (some "/nope") st0).error
        = some (.fileNotFoundError "Can't find temp directory /nope") := by
  have h := C5_error_kinds w0 "F" "/d" "/nope" "disk full" st0
    (fun _ => 0) (fun _ => 0) rfl (by decide) rfl rfl rfl rfl
    (by intro x hx; exact absurd hx (List.not_mem_nil x))
  exact ⟨by decide, rfl, h.1, h.2.2.2.1⟩

def wTwoB : World := { w0 with uids := ["9"], fetch := fun _ => some 30 }

/-- C7: repeated successful runs against the same caller-supplied directory
leave under that directory exactly one container file and one archive file —
both at the fixed sanitized paths, both holding the latest run's content
(the pre-existing files from the earlier run were deleted before creation),
and no other file (no duplicates, no suffixed variants). -/
theorem C7_idempotent_paths (w1 w2 : World) (folder d : String) (st : FState)
    (rawOf1 msgOf1 rawOf2 msgOf2 : String → Nat)
    (hne : d.isEmpty = false) (hd : d ∈ st.dirs)
    (hclean : ∀ e ∈ st.files, inDir d e.1 = false)
    (hm1 : w1.mboxCreateErr = none) (hauth1 : w1.authOk = true)
    (hsel1 : w1.selectOk folder = true) (hsearch1 : w1.searchOk = true)
    (hall1 : ∀ x ∈ w1.uids, w1.fetch x = some (rawOf1 x) ∧ w1.parse (rawOf1 x) = .ok (msgOf1 x))
    (hm2 : w2.mboxCreateErr = none) (hauth2 : w2.authOk = true)
    (hsel2 : w2.selectOk folder = true) (hsearch2 : w2.searchOk = true)
    (hall2 : ∀ x ∈ w2.uids, w2.fetch x = some (rawOf2 x) ∧ w2.parse (rawOf2 x) = .ok (msgOf2 x)) :
    flookup (collect_emails w2 folder (some d)
        (collect_emails w1 folder (some d) st).st).st
        (make_file_name d folder "mbox").asString
      = some (.mboxData (w2.uids.map msgOf2)) ∧
    flookup (collect_emails w2 folder (some d)
        (collect_emails w1 folder (some d) st).st).st
        (make_file_name d folder "zip").asString
      = some (.zipData [((make_file_name d folder "mbox").base,
                         .mboxData (w2.uids.map msgOf2))]) ∧
    ∀ q, inDir d q = true →
      q ≠ (make_file_name d folder "mbox").asString →
      q ≠ (make_file_name d folder "zip").asString →
      flookup (collect_emails w2 folder (some d)
          (collect_emails w1 folder (some d) st).st).st q = none := by
  have hcb1 := container_build_success w1 folder rawOf1 msgOf1 hsel1 hsearch1 hall1
  have hr1 : (container_build w1 folder).2 = none := by rw [hcb1]
  have hcb2 := container_build_success w2 folder rawOf2 msgOf2 hsel2 hsearch2 hall2
  have hr2 : (container_build w2 folder).2 = none := by rw [hcb2]
  have hsup1 := collect_emails_supplied w1 folder d st hne (dexists_of_mem st d hd)
  have hd1 : d ∈ (collect_emails w1 folder (some d) st).st.dirs := by
    rw [hsup1]
    show d ∈ (collect_emails_body w1 folder d st).st.dirs
    rw [collect_emails_body_dirs]
    exact hd
  have hsup2 := collect_emails_supplied w2 folder d
    (collect_emails w1 folder (some d) st).st hne (dexists_of_mem _ d hd1)
  have hlk1 := collect_emails_body_success_flookup w1 folder d st hm1 hauth1 hr1
  have hlk2 := collect_emails_body_success_flookup w2 folder d
    (collect_emails w1 folder (some d) st).st hm2 hauth2 hr2
  refine ⟨?_, ?_, ?_⟩
  · rw [hsup2]
    have h := hlk2.1
    rw [hcb2] at h
    simpa using h
  · rw [hsup2]
    have h := hlk2.2.1
    rw [hcb2] at h
    simpa using h
  · intro q hq hqm hqz
    rw [hsup2]
    have h2 := hlk2.2.2 q hqm hqz
    have h1 := hlk1.2.2 q hqm hqz
    have h0 : flookup st q = none := flookup_none_of_outside st d q hclean hq
    have hr1q : flookup (collect_emails w1 folder (some d) st).st q = none := by
      rw [hsup1]
      exact h1.trans h0
    exact h2.trans hr1q

theorem C7_witness :
    "/d" ∈ st0.dirs ∧
    flookup (collect_emails wTwoB "F" (some "/d")
        (collect_emails wTwo "F" (some "/d") st0).st).st
        (make_file_name "/d" "F" "mbox").asString
      = some (.mboxData (wTwoB.uids.map (fun _ => 30))) ∧
    flookup (collect_emails wTwoB "F" (some "/d")
        (collect_emails wTwo "F" (some "/d") st0).st).st
        (make_file_name "/d" "F" "zip").asString
      = some (.zipData [((make_file_name "/d" "F" "mbox").base,
                         .mboxData (wTwoB.uids.map (fun _ => 30)))]) := by
  have h := C7_idempotent_paths wTwo wTwoB "F" "/d" st0
    (fun u => if u = "1" then 10 else 20) (fun u => if u = "1" then 10 else 20)
    (fun _ => 30) (fun _ => 30)
    rfl (by decide) (by intro e he; exact absurd he (List.not_mem_nil e))
    rfl rfl rfl rfl (by intro x hx; fin_cases hx <;> exact ⟨rfl, rfl⟩)
    rfl rfl rfl rfl (by intro x hx; fin_cases hx; exact ⟨rfl, rfl⟩)
  exact ⟨by decide, h.1, h.2.1⟩

end Marner
